import Mathlib

/-
Verification development for the ReACTor-SQL agent orchestrator
(src/services/llmService.ts and src/unnamed/part_002 / part_003).

The TypeScript source is shallowly embedded: strings are Lean `String`
(lists of Unicode scalar values; JavaScript UTF-16 code-unit lengths and
codepoint lengths agree on every character appearing in the claims),
JavaScript numbers used by the batch sizer are embedded as exact
rationals, external collaborators (the OpenAI model stream, the alasql
engine) are supplied as oracle functions in an environment record, and
`Date.now()` is modelled by a monotone clock counter threaded through the
state (only the monotonicity of the generated ids matters).
-/

namespace ReactorSpec

/-! ## JavaScript character and string primitives -/

/-- Word characters of a JavaScript regular expression without the `u`
flag: ASCII letters, digits and underscore (used for `\b`). -/
def isJsWordChar (c : Char) : Bool :=
  (65 ≤ c.toNat && c.toNat ≤ 90) || (97 ≤ c.toNat && c.toNat ≤ 122) ||
  (48 ≤ c.toNat && c.toNat ≤ 57) || c.toNat = 95

/-- Whitespace recognised by JavaScript `\s` and `String.prototype.trim`
(the common members; the claims only ever exercise the ASCII ones). -/
def isJsSpace (c : Char) : Bool :=
  c.toNat = 32 || c.toNat = 9 || c.toNat = 10 || c.toNat = 13 ||
  c.toNat = 11 || c.toNat = 12 || c.toNat = 160 || c.toNat = 65279

/-- Characters in the CJK range `[一-龥]` used by the sanitizer. -/
def isCjk (c : Char) : Bool :=
  19968 ≤ c.toNat && c.toNat ≤ 40869

/-- Double or single quote, the class `["']`. -/
def isQuoteDS (c : Char) : Bool :=
  c.toNat = 34 || c.toNat = 39

def isAsciiAlpha (c : Char) : Bool :=
  (65 ≤ c.toNat && c.toNat ≤ 90) || (97 ≤ c.toNat && c.toNat ≤ 122)

def isAsciiDigit (c : Char) : Bool :=
  48 ≤ c.toNat && c.toNat ≤ 57

def isAsciiAlphaNum (c : Char) : Bool :=
  isAsciiAlpha c || isAsciiDigit c

/-- JavaScript `String.prototype.trim` on a character list. -/
def jsTrimList (l : List Char) : List Char :=
  ((l.dropWhile isJsSpace).reverse.dropWhile isJsSpace).reverse

/-- JavaScript `String.prototype.trim`. -/
def jsTrimStr (s : String) : String :=
  String.mk (jsTrimList s.data)

/-- Test for the anchored pattern `^[A-Za-z_][A-Za-z0-9_]*$`. -/
def asciiIdentCheck : List Char → Bool
  | [] => false
  | c :: rest =>
      (isAsciiAlpha c || c.toNat = 95) &&
      rest.all (fun d => isAsciiAlphaNum d || d.toNat = 95)

/-- Test for the anchored pattern `^\[[^\]]+\]$`. -/
def bracketQuotedCheck (l : List Char) : Bool :=
  match l with
  | c :: rest =>
      c.toNat = 91 && rest.length ≥ 2 &&
      (rest.getLast?.map Char.toNat = some 93) &&
      rest.dropLast.all (fun d => d.toNat ≠ 93) && rest.dropLast ≠ []
  | [] => false

/-- One application of `.replace(/^["']|["']$/g, "")`: strips at most one
leading and one trailing quote character (non-overlapping, as the regex
engine scans the original string). -/
def stripOuterQuotes (l : List Char) : List Char :=
  let l1 := match l with
    | c :: t => if isQuoteDS c then t else l
    | [] => []
  match l1.getLast? with
  | some d => if isQuoteDS d then l1.dropLast else l1
  | none => l1

/-- One application of `.replace(/^\[|\]$/g, "")`. -/
def stripOuterBrackets (l : List Char) : List Char :=
  let l1 := match l with
    | c :: t => if c.toNat = 91 then t else l
    | [] => []
  match l1.getLast? with
  | some d => if d.toNat = 93 then l1.dropLast else l1
  | none => l1

/-- First-occurrence substring replacement, the behaviour of JavaScript
`String.prototype.replace` with a plain-string pattern. -/
def replaceFirstSub : List Char → List Char → List Char → List Char
  | [], _, _ => []
  | h :: t, needle, repl =>
      if needle.isPrefixOf (h :: t) then repl ++ (h :: t).drop needle.length
      else h :: replaceFirstSub t needle repl

/-- Substring containment, `String.prototype.includes`. -/
def containsSubList (needle : List Char) : List Char → Bool
  | [] => needle.isEmpty
  | c :: t => needle.isPrefixOf (c :: t) || containsSubList needle t

def strContainsSub (s sub : String) : Bool :=
  containsSubList sub.data s.data

/-! ## The JSON value model

JavaScript values flowing through the orchestrator (tool arguments, query
rows) are embedded as a small JSON datatype.  `JSON.stringify` and
`JSON.parse` are platform functions; they are modelled below on the JSON
fragment the program exchanges (objects, arrays, strings, integer
numbers, booleans, null — fractional and exponent number forms are not
produced by any of the modelled call sites). -/

inductive JsVal where
  | nullV : JsVal
  | boolV : Bool → JsVal
  | numV : Int → JsVal
  | strV : String → JsVal
  | arrV : List JsVal → JsVal
  | objV : List (String × JsVal) → JsVal

/-- Escapes of `JSON.stringify` for a single character. -/
def jsonEscapeChar (c : Char) : List Char :=
  if c.toNat = 34 then ['\\', '"']
  else if c.toNat = 92 then ['\\', '\\']
  else if c.toNat = 10 then ['\\', 'n']
  else if c.toNat = 13 then ['\\', 'r']
  else if c.toNat = 9 then ['\\', 't']
  else if c.toNat = 8 then ['\\', 'b']
  else if c.toNat = 12 then ['\\', 'f']
  else if c.toNat < 32 then
    ['\\', 'u', '0', '0',
     (Nat.digitChar (c.toNat / 16)), (Nat.digitChar (c.toNat % 16))]
  else [c]

def quoteJsonString (s : String) : String :=
  "\"" ++ String.mk (s.data.flatMap jsonEscapeChar) ++ "\""

mutual

/-- Model of `JSON.stringify` on the embedded JSON fragment. -/
def jsonStringifyVal : JsVal → String
  | .nullV => "null"
  | .boolV true => "true"
  | .boolV false => "false"
  | .numV n => toString n
  | .strV s => quoteJsonString s
  | .arrV es => "[" ++ String.intercalate "," (jsonStringifyList es) ++ "]"
  | .objV fs => "\x7b" ++ String.intercalate "," (jsonStringifyFields fs) ++ "\x7d"

def jsonStringifyList : List JsVal → List String
  | [] => []
  | v :: t => jsonStringifyVal v :: jsonStringifyList t

def jsonStringifyFields : List (String × JsVal) → List String
  | [] => []
  | (k, v) :: t => (quoteJsonString k ++ ":" ++ jsonStringifyVal v) :: jsonStringifyFields t

end

/-- Whitespace accepted between JSON tokens by `JSON.parse`. -/
def skipJsonWs (l : List Char) : List Char :=
  l.dropWhile (fun c => c.toNat = 32 || c.toNat = 9 || c.toNat = 10 || c.toNat = 13)

/-- Body of a JSON string after the opening quote; returns the decoded
characters and the remainder after the closing quote. -/
def parseJsonStrChars : Nat → List Char → Option (List Char × List Char)
  | 0, _ => none
  | _, [] => none
  | fuel + 1, c :: t =>
      if c.toNat = 34 then some ([], t)
      else if c.toNat = 92 then
        match t with
        | e :: t2 =>
            let cont := fun (d : Char) (rest : List Char) =>
              (parseJsonStrChars fuel rest).map (fun r => (d :: r.1, r.2))
            if e.toNat = 34 then cont '"' t2
            else if e.toNat = 92 then cont '\\' t2
            else if e.toNat = 47 then cont '/' t2
            else if e = 'n' then cont '\n' t2
            else if e = 't' then cont '\t' t2
            else if e = 'r' then cont '\r' t2
            else if e = 'b' then cont (Char.ofNat 8) t2
            else if e = 'f' then cont (Char.ofNat 12) t2
            else if e = 'u' then
              match t2 with
              | h1 :: h2 :: h3 :: h4 :: t3 =>
                  let hex := fun (d : Char) =>
                    if isAsciiDigit d then some (d.toNat - 48)
                    else if 97 ≤ d.toNat && d.toNat ≤ 102 then some (d.toNat - 87)
                    else if 65 ≤ d.toNat && d.toNat ≤ 70 then some (d.toNat - 55)
                    else none
                  match hex h1, hex h2, hex h3, hex h4 with
                  | some a, some b, some cc, some d =>
                      cont (Char.ofNat (((a * 16 + b) * 16 + cc) * 16 + d)) t3
                  | _, _, _, _ => none
              | _ => none
            else none
        | [] => none
      else if c.toNat < 32 then none
      else (parseJsonStrChars fuel t).map (fun r => (c :: r.1, r.2))

def matchLitList : List Char → List Char → Option (List Char)
  | [], l => some l
  | _, [] => none
  | k :: kt, c :: ct => if k = c then matchLitList kt ct else none

mutual

/-- Recursive-descent model of `JSON.parse` on the JSON fragment the
program exchanges (fuelled; every call site supplies ample fuel). -/
def parseJsonVal : Nat → List Char → Option (JsVal × List Char)
  | 0, _ => none
  | fuel + 1, l =>
      match skipJsonWs l with
      | [] => none
      | c :: t =>
          if c.toNat = 34 then
            (parseJsonStrChars (t.length + 1) t).map
              (fun r => (JsVal.strV (String.mk r.1), r.2))
          else if c.toNat = 123 then
            match skipJsonWs t with
            | d :: t2 =>
                if d.toNat = 125 then some (JsVal.objV [], t2)
                else
                  (parseJsonMembers fuel (d :: t2)).map
                    (fun r => (JsVal.objV r.1, r.2))
            | [] => none
          else if c.toNat = 91 then
            match skipJsonWs t with
            | d :: t2 =>
                if d.toNat = 93 then some (JsVal.arrV [], t2)
                else
                  (parseJsonElems fuel (d :: t2)).map
                    (fun r => (JsVal.arrV r.1, r.2))
            | [] => none
          else if c = 't' then
            (matchLitList ['r', 'u', 'e'] t).map (fun r => (JsVal.boolV true, r))
          else if c = 'f' then
            (matchLitList ['a', 'l', 's', 'e'] t).map (fun r => (JsVal.boolV false, r))
          else if c = 'n' then
            (matchLitList ['u', 'l', 'l'] t).map (fun r => (JsVal.nullV, r))
          else if c.toNat = 45 then
            match t with
            | d :: _ =>
                if isAsciiDigit d then
                  let digits := t.takeWhile isAsciiDigit
                  some (JsVal.numV (-(Int.ofNat (Nat.ofDigits 10 (digits.map (fun x => x.toNat - 48)).reverse))),
                        t.drop digits.length)
                else none
            | [] => none
          else if isAsciiDigit c then
            let digits := (c :: t).takeWhile isAsciiDigit
            some (JsVal.numV (Int.ofNat (Nat.ofDigits 10 (digits.map (fun x => x.toNat - 48)).reverse)),
                  (c :: t).drop digits.length)
          else none

/-- Object members after the opening brace (first member already ahead). -/
def parseJsonMembers : Nat → List Char → Option (List (String × JsVal) × List Char)
  | 0, _ => none
  | fuel + 1, l =>
      match skipJsonWs l with
      | c :: t =>
          if c.toNat = 34 then
            match parseJsonStrChars (t.length + 1) t with
            | some (key, r1) =>
                match skipJsonWs r1 with
                | d :: r2 =>
                    if d.toNat = 58 then
                      match parseJsonVal fuel r2 with
                      | some (v, r3) =>
                          match skipJsonWs r3 with
                          | e :: r4 =>
                              if e.toNat = 44 then
                                (parseJsonMembers fuel r4).map
                                  (fun r => ((String.mk key, v) :: r.1, r.2))
                              else if e.toNat = 125 then
                                some ([(String.mk key, v)], r4)
                              else none
                          | [] => none
                      | none => none
                    else none
                | [] => none
            | none => none
          else none
      | [] => none

/-- Array elements after the opening bracket. -/
def parseJsonElems : Nat → List Char → Option (List JsVal × List Char)
  | 0, _ => none
  | fuel + 1, l =>
      match parseJsonVal fuel l with
      | some (v, r1) =>
          match skipJsonWs r1 with
          | e :: r2 =>
              if e.toNat = 44 then
                (parseJsonElems fuel r2).map (fun r => (v :: r.1, r.2))
              else if e.toNat = 93 then some ([v], r2)
              else none
          | [] => none
      | none => none

end

/-- Model of `JSON.parse`: the whole input must be one JSON value. -/
def jsonParse (s : String) : Option JsVal :=
  match parseJsonVal (s.data.length + 1) s.data with
  | some (v, rest) => if skipJsonWs rest = [] then some v else none
  | none => none

/-! ## SQL identifier sanitizer (`sanitizeSql`, llmService.ts lines 72-117)

The two regex passes are embedded as explicit left-to-right scanners with
the exact matching discipline of the JavaScript engine on these patterns:
leftmost match, ordered alternation, greedy character classes (none of
the sub-patterns can succeed through backtracking that the scanners do
not perform, because no class in these patterns overlaps the character
required after it). -/

/-- Second alternative of the alias group: `[^\s,\)\]]+`. -/
def altAliasToken (l : List Char) : Option (List Char) :=
  let tok := l.takeWhile
    (fun c => !(isJsSpace c) && c.toNat ≠ 44 && c.toNat ≠ 41 && c.toNat ≠ 93)
  if tok = [] then none else some tok

/-- The alias capture group `(\[[^\]]+\]|[^\s,\)\]]+)`: a fully
bracketed token is preferred, otherwise a run of non-space,
non-comma, non-paren, non-bracket-close characters. -/
def aliasTokenAt (l : List Char) : Option (List Char) :=
  match l with
  | c :: t =>
      if c.toNat = 91 then
        let body := t.takeWhile (fun d => d.toNat ≠ 93)
        if body.length ≥ 1 && ((t.drop body.length).head?.map Char.toNat = some 93) then
          some (c :: body ++ [']'])
        else altAliasToken l
      else altAliasToken l
  | [] => none

/-- Attempt of `\bAS\s+(alias)` (flags `gi`) at the current position.
`prevWord` records whether the previous character of the original string
is a word character (for `\b`).  Returns the matched `AS` + whitespace
prefix, the captured alias, and the remainder of the string. -/
def tryAliasMatchAt (prevWord : Bool) (l : List Char) :
    Option (List Char × List Char × List Char) :=
  if prevWord then none
  else
    match l with
    | a :: s :: rest =>
        if (a.toNat = 65 || a.toNat = 97) && (s.toNat = 83 || s.toNat = 115) then
          let ws := rest.takeWhile isJsSpace
          if ws = [] then none
          else
            let rest1 := rest.drop ws.length
            match aliasTokenAt rest1 with
            | some tok => some (a :: s :: ws, tok, rest1.drop tok.length)
            | none => none
        else none
    | _ => none

/-- The replacement callback of the alias pass (llmService.ts lines
76-90), threading the `aliasIndex` counter. -/
def aliasCallback (counter : Nat) (matchChars aliasChars : List Char) :
    Nat × List Char :=
  let trimmed := stripOuterQuotes (jsTrimList aliasChars)
  if trimmed = [] then (counter, matchChars)
  else if bracketQuotedCheck trimmed then (counter, matchChars)
  else
    let inner := stripOuterBrackets trimmed
    if asciiIdentCheck inner then
      (counter, replaceFirstSub matchChars aliasChars inner)
    else if inner.any isCjk then
      (counter, replaceFirstSub matchChars aliasChars ('[' :: inner ++ [']']))
    else
      (counter + 1,
       replaceFirstSub matchChars aliasChars ("col_" ++ toString counter).data)

/-- Global scan of the alias pass.  The fuel is the remaining length;
every step consumes at least one character. -/
def aliasScanGo : Nat → Nat → Bool → List Char → Nat × List Char
  | 0, ctr, _, l => (ctr, l)
  | fuel + 1, ctr, prevWord, l =>
      match l with
      | [] => (ctr, [])
      | c :: rest =>
          match tryAliasMatchAt prevWord l with
          | some (asws, tok, rest') =>
              let m := asws ++ tok
              let r1 := aliasCallback ctr m tok
              let pw := match tok.getLast? with
                | some d => isJsWordChar d
                | none => prevWord
              let r2 := aliasScanGo fuel r1.1 pw rest'
              (r2.1, r1.2 ++ r2.2)
          | none =>
              let r := aliasScanGo fuel ctr (isJsWordChar c) rest
              (r.1, c :: r.2)

def sanitizeAliasChars (l : List Char) : List Char :=
  (aliasScanGo l.length 1 false l).2

/-- Case-insensitive literal keyword match; returns the remainder. -/
def matchKeywordCI : List Char → List Char → Option (List Char)
  | [], l => some l
  | _, [] => none
  | k :: kt, c :: ct => if k.toUpper = c.toUpper then matchKeywordCI kt ct else none

/-- Trailing `ASC`/`DESC` (case-insensitive) of the inner ORDER/GROUP
token pattern; returns the matched original characters. -/
def matchAscDesc (l : List Char) : Option (List Char) :=
  match l with
  | a :: b :: c :: rest =>
      if a.toUpper = 'A' && b.toUpper = 'S' && c.toUpper = 'C' then some [a, b, c]
      else
        match rest with
        | d :: _ =>
            if a.toUpper = 'D' && b.toUpper = 'E' && c.toUpper = 'S' && d.toUpper = 'C' then
              some [a, b, c, d]
            else none
        | [] => none
  | _ => none

/-- One match of the inner pattern `([^\s,]+)(\s+(ASC|DESC))?` (flags
`gi`): the token, the optional whitespace + direction keyword, and the
remainder. -/
def obIdentTokenAt (l : List Char) :
    Option (List Char × List Char × List Char) :=
  let tok := l.takeWhile (fun c => !(isJsSpace c) && c.toNat ≠ 44)
  if tok = [] then none
  else
    let rest := l.drop tok.length
    let ws := rest.takeWhile isJsSpace
    if ws = [] then some (tok, [], rest)
    else
      match matchAscDesc (rest.drop ws.length) with
      | some kw => some (tok, ws ++ kw, rest.drop (ws.length + kw.length))
      | none => some (tok, [], rest)

/-- The inner replacement of `wrapChineseIdentifierInOrderGroup`
(llmService.ts lines 98-107) applied globally over a clause body. -/
def obBodyReplace : Nat → List Char → List Char
  | 0, l => l
  | _ + 1, [] => []
  | fuel + 1, c :: rest =>
      match obIdentTokenAt (c :: rest) with
      | some (tok, op, rest') =>
          let idTrim := jsTrimList tok
          let out :=
            if idTrim = [] then tok ++ op
            else if bracketQuotedCheck idTrim then tok ++ op
            else if idTrim.any isCjk &&
                    idTrim.all (fun ch => isCjk ch || isAsciiAlphaNum ch || ch.toNat = 95) then
              ('[' :: idTrim ++ [']']) ++ op
            else tok ++ op
          out ++ obBodyReplace fuel rest'
      | none => c :: obBodyReplace fuel rest

/-- Attempt of `\bORDER\s+BY\s+([^;]+)` (or `GROUP`) at the current
position; returns the captured clause body and the remainder. -/
def tryClauseMatchAt (clauseKw : List Char) (prevWord : Bool) (l : List Char) :
    Option (List Char × List Char) :=
  if prevWord then none
  else
    match matchKeywordCI clauseKw l with
    | none => none
    | some r1 =>
        let ws1 := r1.takeWhile isJsSpace
        if ws1 = [] then none
        else
          match matchKeywordCI ['B', 'Y'] (r1.drop ws1.length) with
          | none => none
          | some r3 =>
              let ws2 := r3.takeWhile isJsSpace
              if ws2 = [] then none
              else
                let r4 := r3.drop ws2.length
                let body := r4.takeWhile (fun c => c.toNat ≠ 59)
                if body = [] then none else some (body, r4.drop body.length)

/-- Global scan of one `wrapChineseIdentifierInOrderGroup` pass.  The
replacement for each match is the literal clause name, one space, and
the rewritten body (llmService.ts line 109). -/
def clauseScanGo (clauseKw clauseOut : List Char) :
    Nat → Bool → List Char → List Char
  | 0, _, l => l
  | _ + 1, _, [] => []
  | fuel + 1, pw, c :: rest =>
      match tryClauseMatchAt clauseKw pw (c :: rest) with
      | some (body, rest') =>
          let pw' := match body.getLast? with
            | some d => isJsWordChar d
            | none => pw
          (clauseOut ++ [' '] ++ obBodyReplace body.length body) ++
            clauseScanGo clauseKw clauseOut fuel pw' rest'
      | none => c :: clauseScanGo clauseKw clauseOut fuel (isJsWordChar c) rest

def wrapCjkOrderGroup (clauseKw clauseOut : String) (l : List Char) : List Char :=
  clauseScanGo clauseKw.data clauseOut.data l.length false l

/-- The SQL identifier sanitizer, llmService.ts lines 72-117: the alias
pass followed by the ORDER BY and GROUP BY passes. -/
def sanitizeSql (s : String) : String :=
  if s = "" then s
  else
    String.mk
      (wrapCjkOrderGroup "GROUP" "GROUP BY"
        (wrapCjkOrderGroup "ORDER" "ORDER BY"
          (sanitizeAliasChars s.data)))

/-! ## Manual tool-call rescue (`detectManualToolCall`, lines 40-70) -/

/-- A finalized tool call as assembled from the model stream: the
identifier, the function name, and the raw JSON argument text. -/
structure ToolCall where
  id : String
  name : String
  args : String
  deriving DecidableEq

/-- Lazy scan of `(.+?)` with the `s` flag after the opening delimiter:
the shortest non-empty run whose following character satisfies
`isClose` and is then followed by `\s*\)`. -/
def lazyScanGroup (isClose : Char → Bool) : Nat → List Char → List Char → Option (List Char)
  | 0, _, _ => none
  | _ + 1, _, [] => none
  | fuel + 1, acc, c :: t =>
      match t with
      | q :: t2 =>
          if isClose q && ((t2.dropWhile isJsSpace).head?.map Char.toNat = some 41) then
            some (acc ++ [c])
          else lazyScanGroup isClose fuel (acc ++ [c]) t
      | [] => none

/-- Attempt of `run_sql\s*\(\s*<open>(.+?)<close>\s*\)` at the current
position (case-sensitive, `s` flag); returns the captured query text. -/
def runSqlPatternAt (isDelim : Char → Bool) (l : List Char) : Option (List Char) :=
  match matchLitList "run_sql".data l with
  | none => none
  | some r1 =>
      match r1.dropWhile isJsSpace with
      | c :: r3 =>
          if c.toNat = 40 then
            match r3.dropWhile isJsSpace with
            | q :: r5 =>
                if isDelim q then lazyScanGroup isDelim (r5.length + 1) [] r5 else none
            | [] => none
          else none
      | [] => none

/-- Leftmost match of a pattern over all start positions (the behaviour
of `String.prototype.match` without the `g` flag, capture group 1). -/
def firstPatternMatch (f : List Char → Option (List Char)) : List Char → Option (List Char)
  | [] => f []
  | l@(_ :: t) =>
      match f l with
      | some r => some r
      | none => firstPatternMatch f t

/-- Model of `detectManualToolCall` (llmService.ts lines 40-70).  The
`k` parameter is the current clock value standing in for `Date.now()`;
the synthesized arguments are `JSON.stringify({ query })`. -/
def detectManualToolCall (k : Nat) (content : String) : Option ToolCall :=
  match firstPatternMatch (runSqlPatternAt isQuoteDS) content.data with
  | some q =>
      some ⟨"manual-sql-" ++ toString k, "run_sql",
            jsonStringifyVal (.objV [("query", .strV (String.mk q))])⟩
  | none =>
    match firstPatternMatch (runSqlPatternAt (fun c => c.toNat = 96)) content.data with
    | some q =>
        some ⟨"manual-sql-" ++ toString k, "run_sql",
              jsonStringifyVal (.objV [("query", .strV (String.mk q))])⟩
    | none =>
        if strContainsSub content "get_database_schema" &&
           (strContainsSub content "()" || strContainsSub content.toLower "call") then
          some ⟨"manual-schema-" ++ toString k, "get_database_schema", "\x7b\x7d"⟩
        else none

/-! ## Adaptive batch sizer (`calculateAdaptiveBatchSize`, lines 131-200)

A result row is a JavaScript object: an ordered list of properties whose
values are embedded JSON values, `none` standing for `undefined`
(`Object.keys` and the field count include such properties, while
`JSON.stringify` omits them and the cell loop skips them, exactly as in
the source).  All alasql result rows are objects, so the source's
non-object-row guard is vacuous in the model.  JavaScript float
arithmetic is embedded as exact rational arithmetic. -/

def Row := List (String × Option JsVal)

/-- The JSON object a row serializes to: `undefined` properties are
omitted by `JSON.stringify`. -/
def rowJson (r : Row) : JsVal :=
  .objV (r.filterMap (fun kv => kv.2.map (fun v => (kv.1, v))))

/-- Characters of `JSON.stringify(row)` (the `try` branch; the model's
serialization cannot throw, so the catch fallback is unreachable). -/
def rowStrLen (r : Row) : Nat :=
  (jsonStringifyVal (rowJson r)).length

/-- `Object.keys(row).length`. -/
def rowFieldCount (r : Row) : Nat := r.length

/-- The non-null, non-undefined cell values of a row. -/
def countedCells (r : Row) : List JsVal :=
  r.filterMap (fun kv =>
    match kv.2 with
    | some .nullV => none
    | some v => some v
    | none => none)

def isTextCell : JsVal → Bool
  | .strV _ => true
  | _ => false

def isLongTextCell : JsVal → Bool
  | .strV s => 256 ≤ s.length
  | _ => false

/-- The first `min(rowCount, 20)` rows sampled by the sizer. -/
def sampleOf (data : List Row) : List Row := data.take 20

def sampleCountOf (data : List Row) : Nat := min data.length 20

def totalFieldsOf (data : List Row) : Nat :=
  ((sampleOf data).map rowFieldCount).sum

def totalRowCharsOf (data : List Row) : Nat :=
  ((sampleOf data).map rowStrLen).sum

def totalCellsOf (data : List Row) : Nat :=
  ((sampleOf data).map (fun r => (countedCells r).length)).sum

def textCellsOf (data : List Row) : Nat :=
  ((sampleOf data).map (fun r => (countedCells r).countP (fun v => isTextCell v))).sum

def longTextCellsOf (data : List Row) : Nat :=
  ((sampleOf data).map (fun r => (countedCells r).countP (fun v => isLongTextCell v))).sum

def avgFieldsOf (data : List Row) : ℚ :=
  (totalFieldsOf data : ℚ) / (sampleCountOf data : ℚ)

def avgRowLenOf (data : List Row) : ℚ :=
  (totalRowCharsOf data : ℚ) / (sampleCountOf data : ℚ)

def rTextOf (data : List Row) : ℚ :=
  if 0 < totalCellsOf data then (textCellsOf data : ℚ) / (totalCellsOf data : ℚ) else 0

def rLongOf (data : List Row) : ℚ :=
  if 0 < totalCellsOf data then (longTextCellsOf data : ℚ) / (totalCellsOf data : ℚ) else 0

/-- Tail of the sizer (llmService.ts lines 176-199) as a function of the
four complexity metrics: normalization, weighted composite with clamp,
and the final `floor` with clamp to `[B_MIN, B_MAX]`. -/
def batchSizeFromMetrics (F L Rt Rl : ℚ) : ℤ :=
  let Cf := min (F / 40) 1
  let Cl := min (L / 4000) 1
  let Ct := 0.5 * Rt + 0.5 * Rl
  let C := min (max (0.4 * Cf + 0.3 * Cl + 0.3 * Ct) 0) 1
  let B := 100 - (100 - 5) * C
  max 5 (min (Int.floor B) 100)

/-- Model of `calculateAdaptiveBatchSize` (llmService.ts lines
131-200).  The second `sampleCount === 0` guard is kept although it is
unreachable once `data` is non-empty. -/
def calculateAdaptiveBatchSize (data : List Row) : ℤ :=
  if data.isEmpty then 10
  else if sampleCountOf data = 0 then 10
  else batchSizeFromMetrics (avgFieldsOf data) (avgRowLenOf data) (rTextOf data) (rLongOf data)

/-! ## Compression accumulator (`smartCompressData`, lines 205-296) -/

/-- Consecutive batches of `n` rows (`data.slice(i, i + BATCH_SIZE)`),
fuelled by the list length; `n` is always the positive batch size. -/
def chunksGo (n : Nat) : Nat → List Row → List (List Row)
  | 0, xs => if xs.isEmpty then [] else [xs]
  | _ + 1, [] => []
  | fuel + 1, xs => xs.take n :: chunksGo n fuel (xs.drop n)

def chunksOf (n : Nat) (l : List Row) : List (List Row) :=
  chunksGo n l.length l

/-- The content the accumulator keeps from one model response:
`response.choices[0].message.content?.trim() || ""`. -/
def respToContent : Option String → String
  | none => ""
  | some s => jsTrimStr s

/-- The raw-JSON fallback marker appended for a failed batch
(llmService.ts line 291, with the 0-based batch index). -/
def batchRawMarker (i : Nat) (batch : List Row) : String :=
  "\n[Batch " ++ toString i ++ " Raw]: " ++
    jsonStringifyVal (.arrV (batch.map rowJson))

/-- The progress message reported before each compression round
(llmService.ts line 232; `i` is 1-based here). -/
def progressMsg (i total : Nat) (batchSize : ℤ) : String :=
  "正在进行智能迭代压缩... (第 " ++ toString i ++ "/" ++ toString total ++
    " 轮, 每轮 " ++ toString batchSize ++ " 行) \n处理模式: 提取/计算并合并..."

/-- Outcome of one per-batch model call, supplied by the environment:
`.ok` carries the (nullable) message content, `.error` a thrown error
message.  Arguments: batch index, user question, executed SQL, the
accumulated text embedded in the prompt, and the batch rows. -/
def CompressOracle :=
  Nat → String → String → String → List Row → Except String (Option String)

/-- One round of the serial accumulator fold (llmService.ts lines
278-292): a successful call replaces the accumulated text with the
model's output; a failure appends the raw-JSON marker to it. -/
def compressStep (oracle : CompressOracle) (question sql : String) (i : Nat)
    (acc : String) (batch : List Row) : String :=
  match oracle i question sql acc batch with
  | .ok c => respToContent c
  | .error _ => acc ++ batchRawMarker i batch

/-- The serial fold over all batches. -/
def compressFold (oracle : CompressOracle) (question sql : String) :
    Nat → String → List (List Row) → String
  | _, acc, [] => acc
  | i, acc, b :: rest =>
      compressFold oracle question sql (i + 1)
        (compressStep oracle question sql i acc b) rest

/-- Model of `smartCompressData` (llmService.ts lines 205-296). -/
def smartCompressData (oracle : CompressOracle) (question sql : String)
    (data : List Row) : String :=
  if data.isEmpty then "[]"
  else
    compressFold oracle question sql 0 ""
      (chunksOf (calculateAdaptiveBatchSize data).toNat data)

/-! ## Agent loop (`runAgent`, llmService.ts lines 301-622)

The loop is embedded as a deterministic transition system over an
environment of oracles: `turns k` is the assembled outcome of the `k`-th
(0-based) streamed model turn — the concatenated, `</tool_call>`-stripped
thought text together with the finalized tool-call buffer, or a
mid-stream exception carrying the text assembled so far; `execSql` is
the external alasql engine (`none` models an `undefined` query
argument); `compress` is the per-batch compression model oracle.  Steps
are recorded in their final form: the source pushes a step in
`streaming` status and finalizes it before the next push, except for the
mid-stream-exception path, where the open thought step keeps its
`streaming` status, which the model preserves verbatim.  A ghost field
`sqlInvocations` logs each call into the query engine. -/

inductive StepType where
  | thought | action | observation
  deriving DecidableEq

inductive StepStatus where
  | streaming | complete | error
  deriving DecidableEq

structure TableSchema where
  tableName : String
  originalName : Option String
  columns : List String
  rowCount : Nat

structure QueryResult where
  columns : List String
  data : List Row
  error : Option String

inductive StepResult where
  | schemaData : List TableSchema → StepResult
  | sqlData : QueryResult → StepResult

structure AgentStep where
  id : String
  type : StepType
  content : String
  status : StepStatus
  toolName : Option String
  result : Option StepResult

inductive Msg where
  | system : String → Msg
  | user : String → Msg
  | assistantCalls : List ToolCall → Msg
  | assistantText : String → Msg
  | tool : String → String → String → Msg

inductive TurnOutcome where
  | ok : String → List ToolCall → TurnOutcome
  | errMid : String → String → TurnOutcome

structure AgentEnv where
  turns : Nat → TurnOutcome
  execSql : Option String → QueryResult
  compress : CompressOracle
  schema : List TableSchema
  question : String
  sysPrompt : String

structure AgentState where
  steps : List AgentStep
  messages : List Msg
  iteration : Nat
  finalAnswer : Option String
  clock : Nat
  sqlInvocations : List (Option String)

def MAX_ITERATIONS : Nat := 50

def invalidJsonMsg : String :=
  "Error: Invalid JSON arguments provided for tool call."

def unknownToolMsg : String := "错误: 未知工具调用"

def emptySchemaMsg : String := "数据库为空。请提示用户先上传 Excel 文件。"

/-- The guided empty-result observation (llmService.ts lines 533-537). -/
def emptyResultMsg : String :=
  "查询结果: [] (0 行)。\n⚠️ **结果为空！**\n1. 请检查你的 WHERE 条件是否太严格。尝试把 AND 换成 OR。\n2. 请确认你使用了 LIKE \x27%...%\x27 而不是 =。\n3. 请尝试执行局部验证查询 (Partial Verification) 来检查数据是否存在。"

/-- One line of the schema observation (llmService.ts lines 514-517). -/
def tableSchemaLine (t : TableSchema) : String :=
  "[Table_SQL_ID: " ++ t.tableName ++ " " ++
    (match t.originalName with
     | some o => "(Source_File: " ++ o ++ ")"
     | none => "") ++
    ", Rows: " ++ toString t.rowCount ++ "] Columns: " ++
    String.intercalate ", " t.columns

def schemaResultString (schema : List TableSchema) : String :=
  let s := String.intercalate "\n" (schema.map tableSchemaLine)
  if s = "" then emptySchemaMsg else s

/-- Property access `fnArgs.query` restricted to string values (the
declared argument type; a missing or non-string property is modelled as
an absent query). -/
def jsGetStrField (v : JsVal) (k : String) : Option String :=
  match v with
  | .objV fs =>
      match fs.foldl (fun acc kv => if kv.1 = k then some kv.2 else acc)
              (none : Option JsVal) with
      | some (.strV s) => some s
      | _ => none
  | _ => none

/-- Truthiness of `queryResult.error`: present and non-empty. -/
def nonemptyError (qr : QueryResult) : Option String :=
  match qr.error with
  | some e => if e = "" then none else some e
  | none => none

/-- Dispatch of one finalized tool call (llmService.ts lines 480-600):
argument parsing with the `'{}'` default, the error action step on parse
failure, and the three tool branches; each branch appends its finalized
action/observation steps (plus the compression progress step for a
non-empty `run_sql` result) and the `tool` message. -/
def dispatchToolCall (env : AgentEnv) (s : AgentState) (tc : ToolCall) : AgentState :=
  match jsonParse (if tc.args = "" then "\x7b\x7d" else tc.args) with
  | none =>
      { s with
        steps := s.steps ++
          [⟨"action-" ++ toString s.clock, .action, "Error parsing: " ++ tc.args,
            .error, some tc.name, none⟩,
           ⟨"obs-" ++ toString (s.clock + 1), .observation, invalidJsonMsg,
            .complete, none, none⟩],
        messages := s.messages ++ [.tool tc.id tc.name invalidJsonMsg],
        clock := s.clock + 2 }
  | some fnArgs =>
      let actStep : AgentStep :=
        ⟨"action-" ++ toString s.clock, .action, jsonStringifyVal fnArgs,
         .complete, some tc.name, none⟩
      if tc.name = "get_database_schema" then
        let rs := schemaResultString env.schema
        { s with
          steps := s.steps ++
            [actStep,
             ⟨"obs-" ++ toString (s.clock + 1), .observation, rs, .complete, none,
              some (.schemaData env.schema)⟩],
          messages := s.messages ++ [.tool tc.id tc.name rs],
          clock := s.clock + 2 }
      else if tc.name = "run_sql" then
        let sqlOpt := (jsGetStrField fnArgs "query").map sanitizeSql
        let qr := env.execSql sqlOpt
        match nonemptyError qr with
        | some e =>
            let rs := "SQL 执行错误: " ++ e
            { s with
              steps := s.steps ++
                [actStep,
                 ⟨"obs-" ++ toString (s.clock + 1), .observation, rs, .complete, none,
                  some (.sqlData qr)⟩],
              messages := s.messages ++ [.tool tc.id tc.name rs],
              clock := s.clock + 2,
              sqlInvocations := s.sqlInvocations ++ [sqlOpt] }
        | none =>
            if qr.data.isEmpty then
              { s with
                steps := s.steps ++
                  [actStep,
                   ⟨"obs-" ++ toString (s.clock + 1), .observation, emptyResultMsg,
                    .complete, none, some (.sqlData qr)⟩],
                messages := s.messages ++ [.tool tc.id tc.name emptyResultMsg],
                clock := s.clock + 2,
                sqlInvocations := s.sqlInvocations ++ [sqlOpt] }
            else
              let bs := calculateAdaptiveBatchSize qr.data
              let nb := (chunksOf bs.toNat qr.data).length
              let compressed :=
                smartCompressData env.compress env.question (sqlOpt.getD "") qr.data
              let rs := "查询结果 (已分析与压缩):\n" ++ compressed
              { s with
                steps := s.steps ++
                  [actStep,
                   ⟨"compress-" ++ toString (s.clock + 1), .thought,
                    progressMsg nb nb bs, .complete, none, none⟩,
                   ⟨"obs-" ++ toString (s.clock + 2), .observation, rs, .complete, none,
                    some (.sqlData qr)⟩],
                messages := s.messages ++ [.tool tc.id tc.name rs],
                clock := s.clock + 3,
                sqlInvocations := s.sqlInvocations ++ [sqlOpt] }
      else
        { s with
          steps := s.steps ++
            [actStep,
             ⟨"obs-" ++ toString (s.clock + 1), .observation, unknownToolMsg,
              .complete, none, none⟩],
          messages := s.messages ++ [.tool tc.id tc.name unknownToolMsg],
          clock := s.clock + 2 }

/-- The tool-call buffer a turn acts on: the structured calls when any
exist, otherwise whatever the manual rescue synthesizes (llmService.ts
lines 464-471). -/
def effectiveToolCalls (k : Nat) (content : String) (calls : List ToolCall) :
    List ToolCall :=
  if calls.isEmpty then
    match detectManualToolCall k content with
    | some c => [c]
    | none => []
  else calls

/-- One iteration of the agent loop body (llmService.ts lines 413-620):
push the thought step, consume the turn, rescue if needed, then either
dispatch every tool call sequentially (continue), emit the final answer
(stop), break on an empty no-call turn (stop), or record a mid-stream
error step (stop).  The Boolean is whether the loop continues. -/
def runIteration (env : AgentEnv) (s : AgentState) : AgentState × Bool :=
  match env.turns s.iteration with
  | .errMid p m =>
      ({ s with
         iteration := s.iteration + 1,
         steps := s.steps ++
           [⟨"step-" ++ toString s.clock, .thought, p, .streaming, none, none⟩,
            ⟨"err-" ++ toString (s.clock + 1), .thought, "Agent Error: " ++ m,
             .error, none, none⟩],
         clock := s.clock + 2 }, false)
  | .ok content calls =>
      let s1 : AgentState :=
        { s with
          iteration := s.iteration + 1,
          steps := s.steps ++
            [⟨"step-" ++ toString s.clock, .thought, content, .complete, none, none⟩],
          clock := s.clock + 1 }
      let buffer := effectiveToolCalls s1.clock content calls
      if buffer.isEmpty then
        if content = "" then (s1, false)
        else
          ({ s1 with
             finalAnswer := some content,
             messages := s1.messages ++ [.assistantText content] }, false)
      else
        let s2 := { s1 with messages := s1.messages ++ [.assistantCalls buffer] }
        (buffer.foldl (dispatchToolCall env) s2, true)

/-- The `while (iteration < MAX_ITERATIONS)` loop, fuelled; a fuel of
`MAX_ITERATIONS` is exact since every round increments `iteration`. -/
def runLoop (env : AgentEnv) : Nat → AgentState → AgentState
  | 0, s => s
  | fuel + 1, s =>
      if s.iteration < MAX_ITERATIONS then
        let r := runIteration env s
        if r.2 then runLoop env fuel r.1 else r.1
      else s

def initialState (env : AgentEnv) : AgentState :=
  ⟨[], [.system env.sysPrompt, .user env.question], 0, none, 0, []⟩

/-- Model of a whole `runAgent` session. -/
def runAgentModel (env : AgentEnv) : AgentState :=
  runLoop env MAX_ITERATIONS (initialState env)

/-! ## Claim-side definitions and concrete scenarios -/

/-- A turn in which the model emits at least one structured tool call
and hence no final text is acted upon. -/
def turnHasCalls : TurnOutcome → Prop
  | .ok _ calls => calls ≠ []
  | .errMid _ _ => False

/-- The composite complexity exactly as the claim states it:
`clamp(0.4·min(avgFields/40,1) + 0.3·min(avgRowLen/4000,1) +
0.3·(0.5·R_text + 0.5·R_long), 0, 1)`. -/
def claimedComposite (data : List Row) : ℚ :=
  min (max (0.4 * min (avgFieldsOf data / 40) 1 +
            0.3 * min (avgRowLenOf data / 4000) 1 +
            0.3 * (0.5 * rTextOf data + 0.5 * rLongOf data)) 0) 1

/-- The batch size exactly as the claim states it:
`floor(100 − (100 − 5)·C)`. -/
def claimedBatchFormula (data : List Row) : ℤ :=
  Int.floor ((100 : ℚ) - (100 - 5) * claimedComposite data)

/-- A small concrete result row used by witnesses. -/
def sampleRow : Row := [("a", some (.strV "v"))]

/-- Environment whose model turn always yields no tool calls and empty
text (the C1 scenario). -/
def envEmptyTurn : AgentEnv :=
  ⟨fun _ => .ok "" [], fun _ => ⟨[], [], none⟩, fun _ _ _ _ _ => .ok none,
   [], "q", ""⟩

/-- Environment whose model turn always emits one structured
`get_database_schema` call and no usable final text (the C9 scenario). -/
def envAllCalls : AgentEnv :=
  ⟨fun _ => .ok "think" [⟨"c1", "get_database_schema", ""⟩],
   fun _ => ⟨[], [], none⟩, fun _ _ _ _ _ => .ok none, [], "q", ""⟩

/-- Environment whose query engine reports a fixed execution error. -/
def envSqlError : AgentEnv :=
  ⟨fun _ => .ok "" [], fun _ => ⟨[], [], some "Table not found"⟩,
   fun _ _ _ _ _ => .ok none, [], "q", ""⟩

/-- Environment whose first model turn fails mid-stream. -/
def envStreamError : AgentEnv :=
  ⟨fun _ => .errMid "partial thought" "network down",
   fun _ => ⟨[], [], none⟩, fun _ _ _ _ _ => .ok none, [], "q", ""⟩

/-- A fresh agent state used by concrete dispatch scenarios. -/
def stateZero : AgentState := ⟨[], [], 0, none, 0, []⟩

/-- Compression oracle failing exactly on the second batch. -/
def oracleMidFail : CompressOracle :=
  fun i _ _ _ _ => if i = 1 then .error "boom" else .ok (some ("R" ++ toString i))

/-! ## Helper lemmas -/

/-- Tool dispatch never touches the iteration counter or the final
answer: every branch only appends steps and messages. -/
theorem dispatchToolCall_preserves (env : AgentEnv) (s : AgentState) (tc : ToolCall) :
    (dispatchToolCall env s tc).iteration = s.iteration ∧
    (dispatchToolCall env s tc).finalAnswer = s.finalAnswer := by
  unfold dispatchToolCall
  repeat' (first | exact ⟨rfl, rfl⟩ | split | dsimp only)

/-- Sequential dispatch of a whole buffer preserves the iteration
counter and the final answer. -/
theorem foldlDispatch_preserves (env : AgentEnv) (l : List ToolCall) :
    ∀ s : AgentState,
      (l.foldl (dispatchToolCall env) s).iteration = s.iteration ∧
      (l.foldl (dispatchToolCall env) s).finalAnswer = s.finalAnswer := by
  induction l with
  | nil => exact fun s => ⟨rfl, rfl⟩
  | cons tc t ih =>
      intro s
      have h1 := dispatchToolCall_preserves env s tc
      have h2 := ih (dispatchToolCall env s tc)
      exact ⟨by rw [List.foldl_cons, h2.1, h1.1], by rw [List.foldl_cons, h2.2, h1.2]⟩

/-- Every executed loop round increments the iteration counter by one. -/
theorem runIteration_iteration (env : AgentEnv) (s : AgentState) :
    (runIteration env s).1.iteration = s.iteration + 1 := by
  unfold runIteration
  cases env.turns s.iteration with
  | errMid p m => rfl
  | ok content calls =>
      dsimp only
      split
      · split <;> rfl
      · exact (foldlDispatch_preserves env _ _).1

/-- A turn with structured tool calls continues the loop and leaves the
final answer untouched. -/
theorem runIteration_of_calls (env : AgentEnv) (s : AgentState)
    (h : turnHasCalls (env.turns s.iteration)) :
    (runIteration env s).2 = true ∧
    (runIteration env s).1.finalAnswer = s.finalAnswer := by
  unfold runIteration
  cases ht : env.turns s.iteration with
  | errMid p m => rw [ht] at h; exact h.elim
  | ok content calls =>
      rw [ht] at h
      dsimp only
      have hb : ∀ k, (effectiveToolCalls k content calls).isEmpty = false := by
        intro k
        unfold effectiveToolCalls
        cases calls with
        | nil => exact absurd rfl h
        | cons a t => simp
      rw [if_neg (by simp [hb])]
      exact ⟨rfl, (foldlDispatch_preserves env _ _).2⟩

/-- The loop never runs the iteration counter past the budget. -/
theorem runLoop_iteration_le (env : AgentEnv) :
    ∀ (f : Nat) (s : AgentState), s.iteration ≤ MAX_ITERATIONS →
      (runLoop env f s).iteration ≤ MAX_ITERATIONS := by
  intro f
  induction f with
  | zero => exact fun s h => h
  | succ f ih =>
      intro s h
      unfold runLoop
      split
      · next hlt =>
          dsimp only
          split
          · exact ih _ (by rw [runIteration_iteration]; omega)
          · rw [runIteration_iteration]; omega
      · exact h

/-- Under perpetual tool-call turns the loop runs its budget down
exactly and preserves the final answer. -/
theorem runLoop_all_calls (env : AgentEnv)
    (hall : ∀ k, turnHasCalls (env.turns k)) :
    ∀ (f : Nat) (s : AgentState), s.iteration + f = MAX_ITERATIONS →
      (runLoop env f s).iteration = MAX_ITERATIONS ∧
      (runLoop env f s).finalAnswer = s.finalAnswer := by
  intro f
  induction f with
  | zero =>
      intro s h
      refine ⟨?_, rfl⟩
      show s.iteration = MAX_ITERATIONS
      omega
  | succ f ih =>
      intro s h
      have hlt : s.iteration < MAX_ITERATIONS := by omega
      have hc := runIteration_of_calls env s (hall s.iteration)
      unfold runLoop
      rw [if_pos hlt]
      dsimp only
      rw [if_pos hc.1]
      have hrec := ih (runIteration env s).1 (by rw [runIteration_iteration]; omega)
      exact ⟨hrec.1, by rw [hrec.2, hc.2]⟩

/-- The clamp `Math.min(Math.max(x, 0), 1)` lands in `[0, 1]`. -/
theorem clamp01_nonneg (x : ℚ) : 0 ≤ min (max x 0) 1 :=
  le_min (le_max_right x 0) zero_le_one

theorem clamp01_le_one (x : ℚ) : min (max x 0) 1 ≤ 1 :=
  min_le_right _ _

/-- With a clamped composite, the pre-clamp batch value floors to at
least `B_MIN`. -/
theorem floorB_ge (x : ℚ) :
    (5 : ℤ) ≤ Int.floor ((100 : ℚ) - (100 - 5) * min (max x 0) 1) := by
  rw [Int.le_floor]
  push_cast
  nlinarith [clamp01_le_one x, clamp01_nonneg x]

/-- With a clamped composite, the pre-clamp batch value floors to at
most `B_MAX`. -/
theorem floorB_le (x : ℚ) :
    Int.floor ((100 : ℚ) - (100 - 5) * min (max x 0) 1) ≤ 100 := by
  have h : ((100 : ℚ) - (100 - 5) * min (max x 0) 1) ≤ 100 := by
    nlinarith [clamp01_nonneg x]
  have h2 := Int.floor_mono h
  have h3 : Int.floor ((100 : ℚ)) = 100 := by norm_num
  omega

/-- The final `[B_MIN, B_MAX]` clamp of the sizer is the identity, so
the sizer equals the bare floored formula. -/
theorem batchSizeFromMetrics_eq_floor (F L Rt Rl : ℚ) :
    batchSizeFromMetrics F L Rt Rl =
      Int.floor ((100 : ℚ) - (100 - 5) *
        min (max (0.4 * min (F / 40) 1 + 0.3 * min (L / 4000) 1 +
                  0.3 * (0.5 * Rt + 0.5 * Rl)) 0) 1) := by
  unfold batchSizeFromMetrics
  dsimp only
  rw [min_eq_left (floorB_le _), max_eq_right (floorB_ge _)]

/-- Bounds of the sizer straight from its final clamp. -/
theorem batchSizeFromMetrics_bounds (F L Rt Rl : ℚ) :
    5 ≤ batchSizeFromMetrics F L Rt Rl ∧ batchSizeFromMetrics F L Rt Rl ≤ 100 := by
  unfold batchSizeFromMetrics
  dsimp only
  exact ⟨le_max_left _ _, max_le (by norm_num) (min_le_right _ _)⟩

/-- On a non-empty result set the sizer is the metrics formula. -/
theorem calc_eq_metrics (data : List Row) (h : data ≠ []) :
    calculateAdaptiveBatchSize data =
      batchSizeFromMetrics (avgFieldsOf data) (avgRowLenOf data)
        (rTextOf data) (rLongOf data) := by
  cases data with
  | nil => exact absurd rfl h
  | cons a l =>
      unfold calculateAdaptiveBatchSize
      rw [if_neg (by simp), if_neg (by simp [sampleCountOf])]

/-- Antitonicity of the metrics formula in all four metrics at once. -/
theorem batchSizeFromMetrics_anti (F F2 L L2 Rt Rt2 Rl Rl2 : ℚ)
    (hF : F ≤ F2) (hL : L ≤ L2) (hRt : Rt ≤ Rt2) (hRl : Rl ≤ Rl2) :
    batchSizeFromMetrics F2 L2 Rt2 Rl2 ≤ batchSizeFromMetrics F L Rt Rl := by
  unfold batchSizeFromMetrics
  dsimp only
  have hs : 0.4 * min (F / 40) 1 + 0.3 * min (L / 4000) 1 +
      0.3 * (0.5 * Rt + 0.5 * Rl) ≤
      0.4 * min (F2 / 40) 1 + 0.3 * min (L2 / 4000) 1 +
      0.3 * (0.5 * Rt2 + 0.5 * Rl2) := by gcongr
  have hc : min (max (0.4 * min (F / 40) 1 + 0.3 * min (L / 4000) 1 +
      0.3 * (0.5 * Rt + 0.5 * Rl)) 0) 1 ≤
      min (max (0.4 * min (F2 / 40) 1 + 0.3 * min (L2 / 4000) 1 +
      0.3 * (0.5 * Rt2 + 0.5 * Rl2)) 0) 1 := by gcongr
  have hb : (100 : ℚ) - (100 - 5) *
      min (max (0.4 * min (F2 / 40) 1 + 0.3 * min (L2 / 4000) 1 +
      0.3 * (0.5 * Rt2 + 0.5 * Rl2)) 0) 1 ≤
      (100 : ℚ) - (100 - 5) *
      min (max (0.4 * min (F / 40) 1 + 0.3 * min (L / 4000) 1 +
      0.3 * (0.5 * Rt + 0.5 * Rl)) 0) 1 := by
    have := mul_le_mul_of_nonneg_left hc (by norm_num : (0 : ℚ) ≤ 100 - 5)
    linarith
  exact max_le_max (le_refl 5) (min_le_min (Int.floor_mono hb) (le_refl 100))

/-! ## Claim theorems -/

/-- C1, counterexample: in a session whose model turn yields zero tool
calls, no rescue and an empty thought, the loop does not retry until the
50-iteration budget is exhausted — it stops after a single iteration
(without a final answer), refuting the claimed implicit retry. -/
theorem claim_c1_counterexample :
    (runAgentModel envEmptyTurn).iteration = 1 ∧
    (runAgentModel envEmptyTurn).iteration ≠ MAX_ITERATIONS ∧
    (runAgentModel envEmptyTurn).finalAnswer = none :=
  ⟨rfl, by decide, rfl⟩

/-- C1, amended: when a turn yields zero structured tool calls, the
manual rescue synthesizes no call, and the assembled thought text is
empty, the loop terminates immediately in that iteration (the `break`
is unconditional) and no final answer is emitted. -/
theorem claim_c1_empty_turn_ends_loop (env : AgentEnv) (s : AgentState) (f : Nat)
    (h1 : s.iteration < MAX_ITERATIONS)
    (h2 : env.turns s.iteration = .ok "" []) :
    runLoop env (f + 1) s =
      { s with
        iteration := s.iteration + 1,
        steps := s.steps ++
          [⟨"step-" ++ toString s.clock, .thought, "", .complete, none, none⟩],
        clock := s.clock + 1 } ∧
    (runLoop env (f + 1) s).finalAnswer = s.finalAnswer := by
  have hdet : detectManualToolCall (s.clock + 1) "" = none := rfl
  have hri : runIteration env s =
      ({ s with
         iteration := s.iteration + 1,
         steps := s.steps ++
           [⟨"step-" ++ toString s.clock, .thought, "", .complete, none, none⟩],
         clock := s.clock + 1 }, false) := by
    unfold runIteration
    rw [h2]
    dsimp only
    rw [show effectiveToolCalls (s.clock + 1) "" [] = [] from by
          unfold effectiveToolCalls; rw [hdet]; rfl]
    rfl
  have hl : runLoop env (f + 1) s =
      { s with
        iteration := s.iteration + 1,
        steps := s.steps ++
          [⟨"step-" ++ toString s.clock, .thought, "", .complete, none, none⟩],
        clock := s.clock + 1 } := by
    unfold runLoop
    rw [if_pos h1, hri]
    rfl
  exact ⟨hl, by rw [hl]⟩

/-- Witness for C1 (amended) at the concrete always-empty environment. -/
theorem claim_c1_empty_turn_ends_loop_witness :
    runLoop envEmptyTurn (49 + 1) stateZero =
      { stateZero with
        iteration := stateZero.iteration + 1,
        steps := stateZero.steps ++
          [⟨"step-" ++ toString stateZero.clock, .thought, "", .complete, none, none⟩],
        clock := stateZero.clock + 1 } ∧
    (runLoop envEmptyTurn (49 + 1) stateZero).finalAnswer = stateZero.finalAnswer :=
  claim_c1_empty_turn_ends_loop envEmptyTurn stateZero 49 (by decide) rfl

/-- C2, counterexample: when the engine reports `Table not found`, the
observation text handed back to the model is
`SQL 执行错误: Table not found`, not the engine message verbatim. -/
theorem claim_c2_counterexample :
    ((dispatchToolCall envSqlError stateZero
        ⟨"1", "run_sql", "\x7b\"query\":\"SELECT 1\"\x7d"⟩).steps.get? 1).map
        AgentStep.content = some "SQL 执行错误: Table not found" ∧
    ((dispatchToolCall envSqlError stateZero
        ⟨"1", "run_sql", "\x7b\"query\":\"SELECT 1\"\x7d"⟩).steps.get? 1).map
        AgentStep.content ≠ some "Table not found" :=
  ⟨rfl, by decide⟩

/-- C2, amended: on an engine-reported execution error the observation
step recorded and the tool message returned to the model both carry the
engine's error message prefixed with the fixed string `SQL 执行错误: `
(the error message itself is embedded verbatim after that prefix). -/
theorem claim_c2_sql_error_observation (env : AgentEnv) (s : AgentState)
    (tc : ToolCall) (fnArgs : JsVal) (q e : String) (qr : QueryResult)
    (hname : tc.name = "run_sql")
    (hparse : jsonParse (if tc.args = "" then "\x7b\x7d" else tc.args) = some fnArgs)
    (hq : jsGetStrField fnArgs "query" = some q)
    (hqr : env.execSql (some (sanitizeSql q)) = qr)
    (herr : nonemptyError qr = some e) :
    (dispatchToolCall env s tc).steps =
      s.steps ++
        [⟨"action-" ++ toString s.clock, .action, jsonStringifyVal fnArgs,
          .complete, some tc.name, none⟩,
         ⟨"obs-" ++ toString (s.clock + 1), .observation, "SQL 执行错误: " ++ e,
          .complete, none, some (.sqlData qr)⟩] ∧
    (dispatchToolCall env s tc).messages =
      s.messages ++ [.tool tc.id tc.name ("SQL 执行错误: " ++ e)] := by
  unfold dispatchToolCall
  rw [hparse]
  dsimp only
  rw [hname]
  rw [if_neg (by decide), if_pos rfl, hq]
  dsimp only [Option.map]
  rw [hqr, herr]
  exact ⟨rfl, rfl⟩

/-- Witness for C2 (amended) at the concrete failing engine. -/
theorem claim_c2_sql_error_observation_witness :
    (dispatchToolCall envSqlError stateZero
        ⟨"1", "run_sql", "\x7b\"query\":\"SELECT 1\"\x7d"⟩).steps =
      stateZero.steps ++
        [⟨"action-" ++ toString stateZero.clock, .action,
          jsonStringifyVal (.objV [("query", .strV "SELECT 1")]),
          .complete, some "run_sql", none⟩,
         ⟨"obs-" ++ toString (stateZero.clock + 1), .observation,
          "SQL 执行错误: " ++ "Table not found", .complete, none,
          some (.sqlData ⟨[], [], some "Table not found"⟩)⟩] ∧
    (dispatchToolCall envSqlError stateZero
        ⟨"1", "run_sql", "\x7b\"query\":\"SELECT 1\"\x7d"⟩).messages =
      stateZero.messages ++
        [.tool "1" "run_sql" ("SQL 执行错误: " ++ "Table not found")] := by
  have h := claim_c2_sql_error_observation envSqlError stateZero
    ⟨"1", "run_sql", "\x7b\"query\":\"SELECT 1\"\x7d"⟩
    (.objV [("query", .strV "SELECT 1")]) "SELECT 1" "Table not found"
    ⟨[], [], some "Table not found"⟩ rfl rfl rfl rfl rfl
  exact h

/-- C3, counterexample: the quoted alias `"总 计"` is not replaced by the
synthetic identifier `col_1`; the alias pattern stops at the space, so
the sanitizer produces `SELECT a AS [总] 计" FROM t` instead. -/
theorem claim_c3_counterexample :
    sanitizeSql "SELECT a AS \"总 计\" FROM t" ≠ "SELECT a AS col_1 FROM t" ∧
    sanitizeSql "SELECT a AS \"总 计\" FROM t" = "SELECT a AS [总] 计\" FROM t" :=
  ⟨by decide, rfl⟩

/-- C3, amended: the alias pass leaves `total_sum` as the unchanged bare
identifier and rewrites `总计` to `[总计]`, but for the quoted alias
`"总 计"` the alias pattern cannot match past the space: it captures
only `"总`, strips the quote, detects the CJK character and rewrites
the match to `AS [总]`, leaving ` 计"` behind — the synthetic `col_1`
branch is not taken. -/
theorem claim_c3_alias_fixtures :
    sanitizeSql "SELECT a AS total_sum FROM t" = "SELECT a AS total_sum FROM t" ∧
    sanitizeSql "SELECT a AS 总计 FROM t" = "SELECT a AS [总计] FROM t" ∧
    sanitizeSql "SELECT a AS \"总 计\" FROM t" = "SELECT a AS [总] 计\" FROM t" :=
  ⟨rfl, rfl, rfl⟩

/-- C4: for every result set the sizer returns an integer in `[5, 100]`;
an empty result set yields exactly `10` without sampling; a non-empty
result set yields exactly `floor(100 − (100 − 5)·C)` with the claimed
clamped composite `C` over the first `min(rowCount, 20)` rows. -/
theorem claim_c4_batch_size_range_and_formula (data : List Row) :
    (5 ≤ calculateAdaptiveBatchSize data ∧ calculateAdaptiveBatchSize data ≤ 100) ∧
    (data = [] → calculateAdaptiveBatchSize data = 10) ∧
    (data ≠ [] → calculateAdaptiveBatchSize data = claimedBatchFormula data) := by
  cases data with
  | nil => exact ⟨⟨by decide, by decide⟩, fun _ => rfl, fun h => absurd rfl h⟩
  | cons a l =>
      have hne : (a :: l : List Row) ≠ [] := by simp
      have heq := calc_eq_metrics (a :: l) hne
      constructor
      · rw [heq]; exact batchSizeFromMetrics_bounds _ _ _ _
      · exact ⟨fun h => absurd h (by simp), fun _ => by
          rw [heq, batchSizeFromMetrics_eq_floor]
          unfold claimedBatchFormula claimedComposite
          rfl⟩

/-- Witness for C4 at concrete result sets. -/
theorem claim_c4_batch_size_witness :
    calculateAdaptiveBatchSize [] = 10 ∧
    calculateAdaptiveBatchSize [sampleRow] = claimedBatchFormula [sampleRow] ∧
    5 ≤ calculateAdaptiveBatchSize [sampleRow] :=
  ⟨(claim_c4_batch_size_range_and_formula []).2.1 rfl,
   (claim_c4_batch_size_range_and_formula [sampleRow]).2.2 (by simp),
   (claim_c4_batch_size_range_and_formula [sampleRow]).1.1⟩

/-- C5: the batch size is monotonically non-increasing in each of the
four complexity metrics (average field count, average serialized row
length, textual-cell ratio, long-text-cell ratio) with the others held
fixed, and on non-empty data the sizer is exactly this function of the
four metrics. -/
theorem claim_c5_batch_size_monotone (F F2 L L2 Rt Rt2 Rl Rl2 : ℚ) :
    (F ≤ F2 → batchSizeFromMetrics F2 L Rt Rl ≤ batchSizeFromMetrics F L Rt Rl) ∧
    (L ≤ L2 → batchSizeFromMetrics F L2 Rt Rl ≤ batchSizeFromMetrics F L Rt Rl) ∧
    (Rt ≤ Rt2 → batchSizeFromMetrics F L Rt2 Rl ≤ batchSizeFromMetrics F L Rt Rl) ∧
    (Rl ≤ Rl2 → batchSizeFromMetrics F L Rt Rl2 ≤ batchSizeFromMetrics F L Rt Rl) ∧
    (∀ data : List Row, data ≠ [] →
       calculateAdaptiveBatchSize data =
         batchSizeFromMetrics (avgFieldsOf data) (avgRowLenOf data)
           (rTextOf data) (rLongOf data)) :=
  ⟨fun h => batchSizeFromMetrics_anti F F2 L L Rt Rt Rl Rl h le_rfl le_rfl le_rfl,
   fun h => batchSizeFromMetrics_anti F F L L2 Rt Rt Rl Rl le_rfl h le_rfl le_rfl,
   fun h => batchSizeFromMetrics_anti F F L L Rt Rt2 Rl Rl le_rfl le_rfl h le_rfl,
   fun h => batchSizeFromMetrics_anti F F L L Rt Rt Rl Rl2 le_rfl le_rfl le_rfl h,
   fun data h => calc_eq_metrics data h⟩

/-- Witness for C5 at concrete metric values and data. -/
theorem claim_c5_batch_size_monotone_witness :
    batchSizeFromMetrics 1 0 0 0 ≤ batchSizeFromMetrics 0 0 0 0 ∧
    batchSizeFromMetrics 0 1 0 0 ≤ batchSizeFromMetrics 0 0 0 0 ∧
    batchSizeFromMetrics 0 0 1 0 ≤ batchSizeFromMetrics 0 0 0 0 ∧
    batchSizeFromMetrics 0 0 0 1 ≤ batchSizeFromMetrics 0 0 0 0 ∧
    calculateAdaptiveBatchSize [sampleRow] =
      batchSizeFromMetrics (avgFieldsOf [sampleRow]) (avgRowLenOf [sampleRow])
        (rTextOf [sampleRow]) (rLongOf [sampleRow]) := by
  have h := claim_c5_batch_size_monotone 0 1 0 1 0 1 0 1
  exact ⟨h.1 (by norm_num), h.2.1 (by norm_num), h.2.2.1 (by norm_num),
         h.2.2.2.1 (by norm_num), h.2.2.2.2 [sampleRow] (by simp)⟩

/-- C6: on a thought text containing `run_sql("SELECT * FROM t_1")` with
zero structured tool calls, exactly one `run_sql` call is synthesized
and its serialized argument parses back to `query = SELECT * FROM t_1`;
when structured tool calls exist the rescue is never consulted and the
buffer is exactly the structured calls. -/
theorem claim_c6_manual_rescue (k : Nat) (content : String) (calls : List ToolCall) :
    (effectiveToolCalls k "Thought: run_sql(\"SELECT * FROM t_1\") should work" [] =
      [⟨"manual-sql-" ++ toString k, "run_sql",
        jsonStringifyVal (.objV [("query", .strV "SELECT * FROM t_1")])⟩]) ∧
    (jsonParse (jsonStringifyVal (.objV [("query", .strV "SELECT * FROM t_1")])) =
      some (.objV [("query", .strV "SELECT * FROM t_1")])) ∧
    (calls ≠ [] → effectiveToolCalls k content calls = calls) := by
  refine ⟨rfl, rfl, fun h => ?_⟩
  cases calls with
  | nil => exact absurd rfl h
  | cons a t => rfl

/-- Witness for C6 at a concrete buffer of structured calls. -/
theorem claim_c6_manual_rescue_witness :
    effectiveToolCalls 0 "also mentions run_sql(\"SELECT 1\")"
        [⟨"a", "run_sql", "\x7b\x7d"⟩] = [⟨"a", "run_sql", "\x7b\x7d"⟩] :=
  (claim_c6_manual_rescue 0 "also mentions run_sql(\"SELECT 1\")"
      [⟨"a", "run_sql", "\x7b\x7d"⟩]).2.2 (by simp)

/-- C7: in the serial compression fold a successful batch replaces the
accumulated text with the model's (trimmed) output; a failed batch does
not abort the fold — the raw-JSON marker for that batch is appended to
the existing accumulated text and the fold continues; and over three
batches whose middle one fails, the final text is the last model output
computed from a context that carries the first batch's output plus the
failed batch's raw data. -/
theorem claim_c7_compress_fold :
    (∀ (oracle : CompressOracle) (q sq : String) (i : Nat) (acc : String)
        (b : List Row) (c : Option String),
       oracle i q sq acc b = .ok c →
       compressStep oracle q sq i acc b = respToContent c) ∧
    (∀ (oracle : CompressOracle) (q sq : String) (i : Nat) (acc : String)
        (b : List Row) (m : String),
       oracle i q sq acc b = .error m →
       compressStep oracle q sq i acc b = acc ++ batchRawMarker i b) ∧
    (∀ (oracle : CompressOracle) (q sq : String) (i : Nat) (acc : String)
        (b : List Row) (rest : List (List Row)) (m : String),
       oracle i q sq acc b = .error m →
       compressFold oracle q sq i acc (b :: rest) =
         compressFold oracle q sq (i + 1) (acc ++ batchRawMarker i b) rest) ∧
    (∀ (oracle : CompressOracle) (q sq : String) (b1 b2 b3 : List Row)
        (c1 : Option String) (m : String) (c3 : Option String),
       oracle 0 q sq "" b1 = .ok c1 →
       oracle 1 q sq (respToContent c1) b2 = .error m →
       oracle 2 q sq (respToContent c1 ++ batchRawMarker 1 b2) b3 = .ok c3 →
       compressFold oracle q sq 0 "" [b1, b2, b3] = respToContent c3) := by
  refine ⟨?_, ?_, ?_, ?_⟩
  · intro oracle q sq i acc b c h
    unfold compressStep
    rw [h]
  · intro oracle q sq i acc b m h
    unfold compressStep
    rw [h]
  · intro oracle q sq i acc b rest m h
    show compressFold oracle q sq (i + 1) (compressStep oracle q sq i acc b) rest = _
    rw [show compressStep oracle q sq i acc b = acc ++ batchRawMarker i b from by
          unfold compressStep; rw [h]]
  · intro oracle q sq b1 b2 b3 c1 m c3 h1 h2 h3
    show compressFold oracle q sq 1 (compressStep oracle q sq 0 "" b1) [b2, b3] = _
    rw [show compressStep oracle q sq 0 "" b1 = respToContent c1 from by
          unfold compressStep; rw [h1]]
    show compressFold oracle q sq 2
        (compressStep oracle q sq 1 (respToContent c1) b2) [b3] = _
    rw [show compressStep oracle q sq 1 (respToContent c1) b2 =
          respToContent c1 ++ batchRawMarker 1 b2 from by
          unfold compressStep; rw [h2]]
    show compressFold oracle q sq 3
        (compressStep oracle q sq 2 (respToContent c1 ++ batchRawMarker 1 b2) b3) [] = _
    rw [show compressStep oracle q sq 2
          (respToContent c1 ++ batchRawMarker 1 b2) b3 = respToContent c3 from by
          unfold compressStep; rw [h3]]
    rfl

/-- Witness for C7 at the concrete mid-failing oracle. -/
theorem claim_c7_compress_fold_witness :
    compressFold oracleMidFail "q" "s" 0 "" [[sampleRow], [sampleRow], [sampleRow]] =
      respToContent (some "R2") :=
  claim_c7_compress_fold.2.2.2 oracleMidFail "q" "s"
    [sampleRow] [sampleRow] [sampleRow] (some "R0") "boom" (some "R2") rfl rfl rfl

/-- C8: a tool call whose argument text fails to parse as JSON yields
exactly one error-status action step carrying the raw argument text plus
one error observation; the named tool is never invoked (the engine
invocation log is unchanged); and the remaining tool calls of the turn
are still dispatched from the resulting state. -/
theorem claim_c8_malformed_args (env : AgentEnv) (s : AgentState) (tc : ToolCall)
    (rest : List ToolCall)
    (h : jsonParse (if tc.args = "" then "\x7b\x7d" else tc.args) = none) :
    dispatchToolCall env s tc =
      { s with
        steps := s.steps ++
          [⟨"action-" ++ toString s.clock, .action, "Error parsing: " ++ tc.args,
            .error, some tc.name, none⟩,
           ⟨"obs-" ++ toString (s.clock + 1), .observation, invalidJsonMsg,
            .complete, none, none⟩],
        messages := s.messages ++ [.tool tc.id tc.name invalidJsonMsg],
        clock := s.clock + 2 } ∧
    (dispatchToolCall env s tc).sqlInvocations = s.sqlInvocations ∧
    (tc :: rest).foldl (dispatchToolCall env) s =
      rest.foldl (dispatchToolCall env) (dispatchToolCall env s tc) := by
  have hd : dispatchToolCall env s tc =
      { s with
        steps := s.steps ++
          [⟨"action-" ++ toString s.clock, .action, "Error parsing: " ++ tc.args,
            .error, some tc.name, none⟩,
           ⟨"obs-" ++ toString (s.clock + 1), .observation, invalidJsonMsg,
            .complete, none, none⟩],
        messages := s.messages ++ [.tool tc.id tc.name invalidJsonMsg],
        clock := s.clock + 2 } := by
    unfold dispatchToolCall
    rw [h]
  exact ⟨hd, by rw [hd], rfl⟩

/-- Witness for C8 at a concrete malformed call followed by a second
call. -/
theorem claim_c8_malformed_args_witness :
    dispatchToolCall envSqlError stateZero ⟨"a", "run_sql", "oops"⟩ =
      { stateZero with
        steps := stateZero.steps ++
          [⟨"action-" ++ toString stateZero.clock, .action, "Error parsing: " ++ "oops",
            .error, some "run_sql", none⟩,
           ⟨"obs-" ++ toString (stateZero.clock + 1), .observation, invalidJsonMsg,
            .complete, none, none⟩],
        messages := stateZero.messages ++ [.tool "a" "run_sql" invalidJsonMsg],
        clock := stateZero.clock + 2 } ∧
    (dispatchToolCall envSqlError stateZero ⟨"a", "run_sql", "oops"⟩).sqlInvocations =
      stateZero.sqlInvocations ∧
    ([⟨"a", "run_sql", "oops"⟩, ⟨"b", "get_database_schema", ""⟩] :
        List ToolCall).foldl (dispatchToolCall envSqlError) stateZero =
      [(⟨"b", "get_database_schema", ""⟩ : ToolCall)].foldl
        (dispatchToolCall envSqlError)
        (dispatchToolCall envSqlError stateZero ⟨"a", "run_sql", "oops"⟩) :=
  claim_c8_malformed_args envSqlError stateZero ⟨"a", "run_sql", "oops"⟩
    [⟨"b", "get_database_schema", ""⟩] rfl

/-- C9: the loop performs at most `MAX_ITERATIONS` (50) iterations, and
when every model turn emits tool calls and no final text it terminates
after exactly the 50th iteration with the session ending without a
final answer. -/
theorem claim_c9_iteration_budget (env : AgentEnv) :
    (runAgentModel env).iteration ≤ MAX_ITERATIONS ∧
    ((∀ k, turnHasCalls (env.turns k)) →
      (runAgentModel env).iteration = MAX_ITERATIONS ∧
      (runAgentModel env).finalAnswer = none) := by
  constructor
  · exact runLoop_iteration_le env MAX_ITERATIONS (initialState env)
      (by show 0 ≤ MAX_ITERATIONS; omega)
  · intro hall
    have h := runLoop_all_calls env hall MAX_ITERATIONS (initialState env)
      (by show 0 + MAX_ITERATIONS = MAX_ITERATIONS; omega)
    exact ⟨h.1, h.2⟩

/-- Witness for C9 at the concrete perpetually-calling environment. -/
theorem claim_c9_iteration_budget_witness :
    (runAgentModel envAllCalls).iteration = MAX_ITERATIONS ∧
    (runAgentModel envAllCalls).finalAnswer = none :=
  (claim_c9_iteration_budget envAllCalls).2
    (fun k => by show ([⟨"c1", "get_database_schema", ""⟩] : List ToolCall) ≠ []; simp)

/-- C10: when the streamed model turn throws while the freshly appended
thought step is still `streaming`, that step is never transitioned to
`complete` or `error` — the error is recorded only in a newly appended
error-status step, the loop exits, and the earlier step remains
`streaming` in the final state. -/
theorem claim_c10_streaming_step_persists (env : AgentEnv) (s : AgentState)
    (p m : String) (f : Nat)
    (h1 : s.iteration < MAX_ITERATIONS)
    (h2 : env.turns s.iteration = .errMid p m) :
    runLoop env (f + 1) s =
      { s with
        iteration := s.iteration + 1,
        steps := s.steps ++
          [⟨"step-" ++ toString s.clock, .thought, p, .streaming, none, none⟩,
           ⟨"err-" ++ toString (s.clock + 1), .thought, "Agent Error: " ++ m,
            .error, none, none⟩],
        clock := s.clock + 2 } ∧
    ((runLoop env (f + 1) s).steps.drop s.steps.length).map AgentStep.status =
      [.streaming, .error] ∧
    (runLoop env (f + 1) s).finalAnswer = s.finalAnswer := by
  have hl : runLoop env (f + 1) s =
      { s with
        iteration := s.iteration + 1,
        steps := s.steps ++
          [⟨"step-" ++ toString s.clock, .thought, p, .streaming, none, none⟩,
           ⟨"err-" ++ toString (s.clock + 1), .thought, "Agent Error: " ++ m,
            .error, none, none⟩],
        clock := s.clock + 2 } := by
    unfold runLoop
    rw [if_pos h1]
    unfold runIteration
    rw [h2]
    rfl
  refine ⟨hl, ?_, by rw [hl]⟩
  rw [hl]
  simp

/-- Witness for C10 at the concrete mid-stream-failing environment. -/
theorem claim_c10_streaming_step_persists_witness :
    runLoop envStreamError (49 + 1) stateZero =
      { stateZero with
        iteration := stateZero.iteration + 1,
        steps := stateZero.steps ++
          [⟨"step-" ++ toString stateZero.clock, .thought, "partial thought",
            .streaming, none, none⟩,
           ⟨"err-" ++ toString (stateZero.clock + 1), .thought,
            "Agent Error: " ++ "network down", .error, none, none⟩],
        clock := stateZero.clock + 2 } ∧
    ((runLoop envStreamError (49 + 1) stateZero).steps.drop
        stateZero.steps.length).map AgentStep.status = [.streaming, .error] ∧
    (runLoop envStreamError (49 + 1) stateZero).finalAnswer =
      stateZero.finalAnswer :=
  claim_c10_streaming_step_persists envStreamError stateZero
    "partial thought" "network down" 49 (by decide) rfl

end ReactorSpec
